import Mathlib

/-!
Shallow embedding of the core of the symbolicator repository:
the filesystem cache layer (caching/fs.rs), the outbound HTTP guard
(utils/http.rs), the request service (service.rs) and the task-metrics
numeric widening (metrics.rs / service.rs).

Durations are modelled as natural numbers counting nanoseconds, matching
the resolution of Rust Duration values; Duration.saturating_sub is
truncated Nat subtraction.
-/

namespace Symbolicator

/-! ## Cache data model (caching/fs.rs and its collaborators) -/

/-- Modelled from the spec: the CacheError enumeration lives in
caching/cache_error.rs, which is not among the provided sources. Variants
per spec section 3: NotFound, Malformed(reason), Timeout,
DownloadError(reason), PermissionDenied, InternalError. -/
inductive CacheError where
  | NotFound
  | Malformed (reason : String)
  | Timeout
  | DownloadError (reason : String)
  | PermissionDenied (reason : String)
  | InternalError
  deriving DecidableEq, Repr

/-- CacheEntry of T is Ok(T) or Err(CacheError), embedded as Except. -/
abbrev CacheEntry (T : Type) := Except CacheError T

/-- Modelled from the spec: the per-cache user options, defined in
config.rs which is not among the provided sources. Each duration option
is optional; absent means infinite (code uses unwrap_or(Duration::MAX)). -/
structure CacheConfigParams where
  max_unused_for : Option Nat
  retry_misses_after : Option Nat
  retry_malformed_after : Option Nat
  deriving DecidableEq, Repr

/-- Modelled from the spec: CacheConfig is an enumeration over the cache
kind {Downloaded, Derived, Diagnostics} carrying the per-cache options;
the kind constructors are visible in the match inside expiration_strategy
in caching/fs.rs, the payload comes from spec section 3. -/
inductive CacheConfig where
  | Downloaded (p : CacheConfigParams)
  | Derived (p : CacheConfigParams)
  | Diagnostics (p : CacheConfigParams)
  deriving DecidableEq, Repr

def CacheConfig.params : CacheConfig → CacheConfigParams
  | .Downloaded p => p
  | .Derived p => p
  | .Diagnostics p => p

def CacheConfig.max_unused_for (c : CacheConfig) : Option Nat :=
  c.params.max_unused_for

def CacheConfig.retry_misses_after (c : CacheConfig) : Option Nat :=
  c.params.retry_misses_after

def CacheConfig.retry_malformed_after (c : CacheConfig) : Option Nat :=
  c.params.retry_malformed_after

/-- CacheKind per spec section 3: the closed enumeration of cache kinds. -/
inductive CacheKind where
  | Downloaded
  | Derived
  | Diagnostics
  deriving DecidableEq, Repr

def CacheConfig.kind : CacheConfig → CacheKind
  | .Downloaded _ => .Downloaded
  | .Derived _ => .Derived
  | .Diagnostics _ => .Diagnostics

/-- Number of nanoseconds in a second; durations are counted in
nanoseconds. -/
def NANOS_PER_SEC : Nat := 1000000000

/-- Rust Duration::MAX in nanoseconds: u64::MAX seconds plus the largest
sub-second nanosecond count. -/
def DURATION_MAX : Nat := (2 ^ 64 - 1) * NANOS_PER_SEC + (NANOS_PER_SEC - 1)

/-- TOUCH_EVERY from caching/fs.rs: Duration::from_secs(3600). -/
def TOUCH_EVERY : Nat := 3600 * NANOS_PER_SEC

/-- ExpirationStrategy from caching/fs.rs. -/
inductive ExpirationStrategy where
  | None
  | Negative
  | Malformed
  deriving DecidableEq, Repr

/-- ExpirationTime from caching/fs.rs. -/
inductive ExpirationTime where
  | RefreshIn (d : Nat)
  | TouchIn (d : Nat)
  deriving DecidableEq, Repr

/-- expiration_strategy from caching/fs.rs: Ok is None, NotFound is
Negative, Malformed is Malformed, all other errors fall back to a default
chosen by the cache kind. -/
def expiration_strategy (cache_config : CacheConfig)
    (status : CacheEntry (List Nat)) : ExpirationStrategy :=
  match status with
  | .ok _ => ExpirationStrategy.None
  | .error CacheError.NotFound => ExpirationStrategy.Negative
  | .error (CacheError.Malformed _) => ExpirationStrategy.Malformed
  | .error _ =>
    match cache_config with
    | .Downloaded _ => ExpirationStrategy.Negative
    | .Derived _ => ExpirationStrategy.Malformed
    | .Diagnostics _ => ExpirationStrategy.None

/-- Modelled from the spec: cache_entry_from_bytes lives in
caching/cache_error.rs, not among the provided sources. Per spec section
4.A: an empty file decodes to Err(NotFound), a file whose entire contents
are the nine ASCII bytes of the string malformed decodes to
Err(Malformed("")), anything else decodes to Ok(bytes). -/
def MALFORMED_MARKER : List Nat := [109, 97, 108, 102, 111, 114, 109, 101, 100]

/-- Modelled from the spec: decoding of the on-disk representation, see
MALFORMED_MARKER. -/
def cache_entry_from_bytes (bv : List Nat) : CacheEntry (List Nat) :=
  if bv = [] then .error CacheError.NotFound
  else if bv = MALFORMED_MARKER then .error (CacheError.Malformed "")
  else .ok bv

/-! ## C1: the expiration-strategy rule table -/

/-- The default strategy for non-sentinel errors as a function of the
cache kind, stated from the rule table in spec section 4.B. -/
def kind_default_strategy : CacheKind → ExpirationStrategy
  | .Downloaded => ExpirationStrategy.Negative
  | .Derived => ExpirationStrategy.Malformed
  | .Diagnostics => ExpirationStrategy.None

/-- Recognizer for the error variants that have no dedicated strategy
row: every CacheError other than NotFound and Malformed. -/
def is_other_error : CacheEntry (List Nat) → Bool
  | .error CacheError.NotFound => false
  | .error (CacheError.Malformed _) => false
  | .error _ => true
  | .ok _ => false

/-- C1: expiration_strategy is total and matches the rule table: Ok maps
to None, Err(NotFound) to Negative, Err(Malformed) to Malformed, and
every other error variant to the default determined by the cache kind
(Downloaded to Negative, Derived to Malformed, Diagnostics to None). -/
theorem expiration_strategy_rule_table (cache_config : CacheConfig)
    (entry : CacheEntry (List Nat)) :
    (∀ v, expiration_strategy cache_config (.ok v) = ExpirationStrategy.None)
    ∧ expiration_strategy cache_config (.error CacheError.NotFound)
        = ExpirationStrategy.Negative
    ∧ (∀ r, expiration_strategy cache_config (.error (CacheError.Malformed r))
        = ExpirationStrategy.Malformed)
    ∧ (is_other_error entry = true →
        expiration_strategy cache_config entry
          = kind_default_strategy cache_config.kind) := by
  refine ⟨fun v => rfl, rfl, fun r => rfl, fun h => ?_⟩
  cases entry with
  | ok v => simp [is_other_error] at h
  | error e =>
    cases e <;> simp [is_other_error] at h <;>
      cases cache_config <;>
        rfl

/-- Witness for C1 at a concrete config and a concrete non-sentinel
error entry. -/
theorem expiration_strategy_rule_table_witness :
    expiration_strategy (.Derived ⟨none, none, none⟩)
        (.error CacheError.Timeout)
      = kind_default_strategy (CacheConfig.kind (.Derived ⟨none, none, none⟩)) :=
  (expiration_strategy_rule_table (.Derived ⟨none, none, none⟩)
    (.error CacheError.Timeout)).2.2.2 (by decide)

/-! ## check_expiry and open_cachefile (caching/fs.rs) -/

/-- The kinds of I/O errors the embedding distinguishes: NotFound is the
only kind the cache layer treats specially. -/
inductive IoErrorKind where
  | notFound
  | permissionDenied
  | other (msg : String)
  deriving DecidableEq, Repr

/-- The pure core of Cache::check_expiry from caching/fs.rs, after the
metadata read and the ByteView open have succeeded: mtime_elapsed is
mtime.elapsed().unwrap_or_default(), i.e. truncated subtraction of mtime
from now; each branch follows the match on the expiration strategy,
returning Err(io::ErrorKind::NotFound) on expiry. -/
def check_expiry_core (cache_config : CacheConfig) (start_time mtime now : Nat)
    (cache_entry : CacheEntry (List Nat)) :
    Except IoErrorKind (CacheEntry (List Nat) × ExpirationTime) :=
  let mtime_elapsed := now - mtime
  match expiration_strategy cache_config cache_entry with
  | ExpirationStrategy.None =>
    let max_unused_for := cache_config.max_unused_for.getD DURATION_MAX
    if mtime_elapsed > max_unused_for then
      .error IoErrorKind.notFound
    else
      .ok (cache_entry, ExpirationTime.TouchIn (TOUCH_EVERY - mtime_elapsed))
  | ExpirationStrategy.Negative =>
    let retry_misses_after := cache_config.retry_misses_after.getD DURATION_MAX
    let expires_in := retry_misses_after - mtime_elapsed
    if expires_in = 0 then
      .error IoErrorKind.notFound
    else
      .ok (cache_entry, ExpirationTime.RefreshIn expires_in)
  | ExpirationStrategy.Malformed =>
    let retry_malformed_after := cache_config.retry_malformed_after.getD DURATION_MAX
    let expires_in := retry_malformed_after - mtime_elapsed
    if mtime < start_time ∨ expires_in = 0 then
      .error IoErrorKind.notFound
    else
      .ok (cache_entry, ExpirationTime.RefreshIn expires_in)

/-- The filesystem interactions of one open_cachefile call, each step an
oracle for the outcome the real filesystem would give: path.metadata(),
ByteView::open(path), metadata.modified() and
filetime::set_file_mtime(path, now), in the order the source performs
them. -/
structure FsFile where
  metadataResult : Except IoErrorKind Unit
  openResult : Except IoErrorKind (List Nat)
  modifiedResult : Except IoErrorKind Nat
  touchResult : Except IoErrorKind Unit
  deriving Repr

/-- Cache::check_expiry from caching/fs.rs including its fallible steps:
read metadata, open the ByteView, read mtime, decode the entry, then run
the pure expiry logic. -/
def check_expiry (cache_config : CacheConfig) (start_time now : Nat)
    (fs : FsFile) :
    Except IoErrorKind (CacheEntry (List Nat) × ExpirationTime) := do
  let _ ← fs.metadataResult
  let bv ← fs.openResult
  let mtime ← fs.modifiedResult
  let cache_entry := cache_entry_from_bytes bv
  check_expiry_core cache_config start_time mtime now cache_entry

/-- catch_not_found from caching/fs.rs: run the closure, turn an
io::ErrorKind::NotFound error into Ok(None), keep every other error. -/
def catch_not_found {α : Type} (r : Except IoErrorKind α) :
    Except IoErrorKind (Option α) :=
  match r with
  | .ok x => .ok (some x)
  | .error e =>
    match e with
    | IoErrorKind.notFound => .ok none
    | _ => .error e

/-- The body of the closure inside Cache::open_cachefile from
caching/fs.rs: check expiry, and when the expiration is TouchIn(ZERO),
touch the file and report the freshly touched state
TouchIn(TOUCH_EVERY). -/
def open_cachefile_inner (cache_config : CacheConfig) (start_time now : Nat)
    (fs : FsFile) :
    Except IoErrorKind (CacheEntry (List Nat) × ExpirationTime) := do
  let (cache_entry, expiration) ← check_expiry cache_config start_time now fs
  let should_touch := expiration = ExpirationTime.TouchIn 0
  if should_touch then do
    let _ ← fs.touchResult
    pure (cache_entry, ExpirationTime.TouchIn TOUCH_EVERY)
  else
    pure (cache_entry, expiration)

/-- Cache::open_cachefile from caching/fs.rs: the closure body wrapped in
catch_not_found. -/
def open_cachefile (cache_config : CacheConfig) (start_time now : Nat)
    (fs : FsFile) :
    Except IoErrorKind (Option (CacheEntry (List Nat) × ExpirationTime)) :=
  catch_not_found (open_cachefile_inner cache_config start_time now fs)

/-- Whether the open_cachefile call successfully touched the file:
set_file_mtime was attempted (expiration was TouchIn(ZERO)) and
succeeded. -/
def open_cachefile_touched (cache_config : CacheConfig) (start_time now : Nat)
    (fs : FsFile) : Bool :=
  match check_expiry cache_config start_time now fs with
  | .ok (_, expiration) =>
    decide (expiration = ExpirationTime.TouchIn 0)
      && (match fs.touchResult with | .ok _ => true | .error _ => false)
  | .error _ => false

/-- The file mtime after the open_cachefile call: now when the call
touched the file, the original mtime otherwise. -/
def mtime_after (cache_config : CacheConfig) (start_time now : Nat)
    (fs : FsFile) (mtime : Nat) : Nat :=
  if open_cachefile_touched cache_config start_time now fs then now else mtime

/-! ## C3: pre-start malformed entries always miss -/

/-- Helper: check_expiry on a file whose metadata, open and mtime steps
all succeed reduces to the pure core on the decoded entry. -/
theorem check_expiry_all_ok (cache_config : CacheConfig)
    (start_time now mtime : Nat) (bytes : List Nat) (t : Except IoErrorKind Unit) :
    check_expiry cache_config start_time now ⟨.ok (), .ok bytes, .ok mtime, t⟩
      = check_expiry_core cache_config start_time mtime now
          (cache_entry_from_bytes bytes) := rfl

/-- C3: when the decoded entry has expiration strategy Malformed and the
file mtime is strictly earlier than the cache start_time, both the pure
expiry check and open_cachefile report a miss, for every configured
retry_malformed_after value and every wall-clock time. -/
theorem malformed_pre_start_is_miss (cache_config : CacheConfig)
    (start_time mtime now : Nat) (bytes : List Nat)
    (hstrat : expiration_strategy cache_config (cache_entry_from_bytes bytes)
        = ExpirationStrategy.Malformed)
    (hm : mtime < start_time) :
    check_expiry_core cache_config start_time mtime now
        (cache_entry_from_bytes bytes) = .error IoErrorKind.notFound
    ∧ open_cachefile cache_config start_time now
        ⟨.ok (), .ok bytes, .ok mtime, .ok ()⟩ = .ok none := by
  have hcore : check_expiry_core cache_config start_time mtime now
      (cache_entry_from_bytes bytes) = .error IoErrorKind.notFound := by
    unfold check_expiry_core
    rw [hstrat]
    simp [hm]
  refine ⟨hcore, ?_⟩
  unfold open_cachefile open_cachefile_inner
  rw [check_expiry_all_ok, hcore]
  rfl

/-- Witness for C3: the nine-byte malformed sentinel written one tick
before the process start misses even with a one-hour
retry_malformed_after and a fresh age. -/
theorem malformed_pre_start_is_miss_witness :
    expiration_strategy (.Derived ⟨none, none, some TOUCH_EVERY⟩)
        (cache_entry_from_bytes MALFORMED_MARKER) = ExpirationStrategy.Malformed
    ∧ open_cachefile (.Derived ⟨none, none, some TOUCH_EVERY⟩) 10 11
        ⟨.ok (), .ok MALFORMED_MARKER, .ok 9, .ok ()⟩ = .ok none :=
  ⟨by decide, (malformed_pre_start_is_miss (.Derived ⟨none, none, some TOUCH_EVERY⟩)
      10 9 11 MALFORMED_MARKER (by decide) (by decide)).2⟩

/-! ## C8: expiry is monotone in the wall clock -/

/-- C8: holding the file mtime, the entry and the configuration fixed,
if the pure expiry check reports a miss at wall-clock time now, it also
reports a miss at every later wall-clock time; and a None-strategy entry
whose mtime is reset to the current clock checks out as
TouchIn(TOUCH_EVERY). -/
theorem check_expiry_monotone (cache_config : CacheConfig)
    (start_time mtime now now2 : Nat) (entry : CacheEntry (List Nat))
    (hle : now ≤ now2) :
    (check_expiry_core cache_config start_time mtime now entry
        = .error IoErrorKind.notFound →
      check_expiry_core cache_config start_time mtime now2 entry
        = .error IoErrorKind.notFound)
    ∧ (expiration_strategy cache_config entry = ExpirationStrategy.None →
        check_expiry_core cache_config start_time now2 now2 entry
          = .ok (entry, ExpirationTime.TouchIn TOUCH_EVERY)) := by
  constructor
  · intro hmiss
    unfold check_expiry_core at hmiss ⊢
    cases hstrat : expiration_strategy cache_config entry <;>
      · rw [hstrat] at hmiss
        dsimp only at hmiss ⊢
        split at hmiss
        · rw [if_pos (by omega)]
        · simp at hmiss
  · intro hstrat
    unfold check_expiry_core
    rw [hstrat]
    simp [Nat.sub_self, TOUCH_EVERY]

/-- Witness for C8: a positive entry with a five-tick idle limit is
expired ten ticks after its mtime and stays expired at twenty ticks;
resetting its mtime to the clock yields TouchIn(TOUCH_EVERY). -/
theorem check_expiry_monotone_witness :
    check_expiry_core (.Diagnostics ⟨some 5, none, none⟩) 0 0 20 (.ok [1])
      = .error IoErrorKind.notFound
    ∧ check_expiry_core (.Diagnostics ⟨some 5, none, none⟩) 0 20 20 (.ok [1])
      = .ok (.ok [1], ExpirationTime.TouchIn TOUCH_EVERY) :=
  ⟨(check_expiry_monotone (.Diagnostics ⟨some 5, none, none⟩) 0 0 10 20 (.ok [1])
      (by decide)).1 (by rfl),
   (check_expiry_monotone (.Diagnostics ⟨some 5, none, none⟩) 0 0 10 20 (.ok [1])
      (by decide)).2 (by rfl)⟩

/-! ## C7: touch debounce on positive entries -/

/-- C7: for a positive entry (decoded Ok, hence strategy None) that is
not expired, open_cachefile touches the file exactly when its age has
reached TOUCH_EVERY; a touch bumps the mtime to now and reports
TouchIn(TOUCH_EVERY); below TOUCH_EVERY the mtime is left unchanged and
the remaining TouchIn window is reported. -/
theorem positive_touch_debounce (cache_config : CacheConfig)
    (start_time mtime now : Nat) (bytes v : List Nat)
    (hdec : cache_entry_from_bytes bytes = .ok v)
    (hfresh : now - mtime ≤ cache_config.max_unused_for.getD DURATION_MAX) :
    (open_cachefile_touched cache_config start_time now
        ⟨.ok (), .ok bytes, .ok mtime, .ok ()⟩ = true
      ↔ TOUCH_EVERY ≤ now - mtime)
    ∧ (TOUCH_EVERY ≤ now - mtime →
        open_cachefile cache_config start_time now
            ⟨.ok (), .ok bytes, .ok mtime, .ok ()⟩
          = .ok (some (.ok v, ExpirationTime.TouchIn TOUCH_EVERY))
        ∧ mtime_after cache_config start_time now
            ⟨.ok (), .ok bytes, .ok mtime, .ok ()⟩ mtime = now)
    ∧ (now - mtime < TOUCH_EVERY →
        mtime_after cache_config start_time now
            ⟨.ok (), .ok bytes, .ok mtime, .ok ()⟩ mtime = mtime
        ∧ open_cachefile cache_config start_time now
            ⟨.ok (), .ok bytes, .ok mtime, .ok ()⟩
          = .ok (some (.ok v,
              ExpirationTime.TouchIn (TOUCH_EVERY - (now - mtime))))) := by
  have hcore : check_expiry cache_config start_time now
      ⟨.ok (), .ok bytes, .ok mtime, .ok ()⟩
      = .ok (.ok v, ExpirationTime.TouchIn (TOUCH_EVERY - (now - mtime))) := by
    rw [check_expiry_all_ok, hdec]
    unfold check_expiry_core
    rw [show expiration_strategy cache_config (.ok v) = ExpirationStrategy.None
      from rfl]
    dsimp only
    rw [if_neg (by omega)]
  have htouched : open_cachefile_touched cache_config start_time now
      ⟨.ok (), .ok bytes, .ok mtime, .ok ()⟩
      = decide (TOUCH_EVERY - (now - mtime) = 0) := by
    unfold open_cachefile_touched
    rw [hcore]
    simp
  have hopen : open_cachefile cache_config start_time now
      ⟨.ok (), .ok bytes, .ok mtime, .ok ()⟩
      = .ok (some (.ok v,
          if TOUCH_EVERY - (now - mtime) = 0 then ExpirationTime.TouchIn TOUCH_EVERY
          else ExpirationTime.TouchIn (TOUCH_EVERY - (now - mtime)))) := by
    unfold open_cachefile open_cachefile_inner
    rw [hcore]
    by_cases hz : TOUCH_EVERY - (now - mtime) = 0
    · rw [hz]
      rfl
    · rw [if_neg hz]
      have : (ExpirationTime.TouchIn (TOUCH_EVERY - (now - mtime))
          = ExpirationTime.TouchIn 0) ↔ False := by
        simp [hz]
      simp only [Except.bind, bind]
      rw [if_neg (by simp [hz])]
      rfl
  refine ⟨?_, ?_, ?_⟩
  · rw [htouched]
    simp [Nat.sub_eq_zero_iff_le]
  · intro hage
    have hz : TOUCH_EVERY - (now - mtime) = 0 := Nat.sub_eq_zero_of_le hage
    constructor
    · rw [hopen, if_pos hz]
    · unfold mtime_after
      rw [htouched, hz]
      simp
  · intro hage
    have hz : TOUCH_EVERY - (now - mtime) ≠ 0 := by omega
    constructor
    · unfold mtime_after
      rw [htouched]
      simp [hz]
    · rw [hopen, if_neg hz]

/-- Witness for C7: a positive entry exactly TOUCH_EVERY old is touched
and reported as TouchIn(TOUCH_EVERY); the same entry one tick younger
keeps its mtime. -/
theorem positive_touch_debounce_witness :
    (TOUCH_EVERY ≤ TOUCH_EVERY - 0
      ∧ open_cachefile (.Diagnostics ⟨none, none, none⟩) 0 TOUCH_EVERY
          ⟨.ok (), .ok [1], .ok 0, .ok ()⟩
        = .ok (some (.ok [1], ExpirationTime.TouchIn TOUCH_EVERY)))
    ∧ mtime_after (.Diagnostics ⟨none, none, none⟩) 0 (TOUCH_EVERY - 1)
        ⟨.ok (), .ok [1], .ok 0, .ok ()⟩ 0 = 0 :=
  ⟨⟨Nat.le_refl _,
    ((positive_touch_debounce (.Diagnostics ⟨none, none, none⟩) 0 0 TOUCH_EVERY
      [1] [1] (by rfl) (by decide)).2.1 (by decide)).1⟩,
   ((positive_touch_debounce (.Diagnostics ⟨none, none, none⟩) 0 0 (TOUCH_EVERY - 1)
      [1] [1] (by rfl) (by decide)).2.2 (by decide)).1⟩

/-! ## C4: NotFound becomes a clean miss, other errors propagate -/

/-- Helper: check_expiry propagates a failing metadata read. -/
theorem check_expiry_metadata_err (cache_config : CacheConfig)
    (start_time now : Nat) (fs : FsFile) (e : IoErrorKind)
    (hm : fs.metadataResult = .error e) :
    check_expiry cache_config start_time now fs = .error e := by
  unfold check_expiry
  rw [hm]
  rfl

/-- Helper: check_expiry propagates a failing ByteView open. -/
theorem check_expiry_open_err (cache_config : CacheConfig)
    (start_time now : Nat) (fs : FsFile) (e : IoErrorKind)
    (hm : fs.metadataResult = .ok ()) (ho : fs.openResult = .error e) :
    check_expiry cache_config start_time now fs = .error e := by
  unfold check_expiry
  rw [hm, ho]
  rfl

/-- Helper: check_expiry propagates a failing mtime read. -/
theorem check_expiry_modified_err (cache_config : CacheConfig)
    (start_time now : Nat) (fs : FsFile) (e : IoErrorKind) (b : List Nat)
    (hm : fs.metadataResult = .ok ()) (ho : fs.openResult = .ok b)
    (hmo : fs.modifiedResult = .error e) :
    check_expiry cache_config start_time now fs = .error e := by
  unfold check_expiry
  rw [hm, ho, hmo]
  rfl

/-- Helper: a failing touch of a TouchIn(ZERO) entry propagates out of
the open_cachefile closure. -/
theorem open_cachefile_inner_touch_err (cache_config : CacheConfig)
    (start_time now : Nat) (fs : FsFile) (e : IoErrorKind)
    (ce : CacheEntry (List Nat))
    (hce : check_expiry cache_config start_time now fs
        = .ok (ce, ExpirationTime.TouchIn 0))
    (ht : fs.touchResult = .error e) :
    open_cachefile_inner cache_config start_time now fs = .error e := by
  unfold open_cachefile_inner
  rw [hce]
  dsimp only [bind, Except.bind]
  rw [if_pos rfl, ht]

/-- C4: open_cachefile turns a NotFound raised anywhere inside the
closure, in particular by the metadata read, the file open, the mtime
read or the touch, into a clean miss Ok(None), and propagates every
error of any other kind unchanged. -/
theorem open_cachefile_catches_not_found (cache_config : CacheConfig)
    (start_time now : Nat) (fs : FsFile) :
    (open_cachefile_inner cache_config start_time now fs
        = .error IoErrorKind.notFound →
      open_cachefile cache_config start_time now fs = .ok none)
    ∧ (∀ e, e ≠ IoErrorKind.notFound →
        open_cachefile_inner cache_config start_time now fs = .error e →
        open_cachefile cache_config start_time now fs = .error e)
    ∧ (∀ v, open_cachefile_inner cache_config start_time now fs = .ok v →
        open_cachefile cache_config start_time now fs = .ok (some v))
    ∧ (fs.metadataResult = .error IoErrorKind.notFound →
        open_cachefile cache_config start_time now fs = .ok none)
    ∧ (fs.metadataResult = .ok () →
        fs.openResult = .error IoErrorKind.notFound →
        open_cachefile cache_config start_time now fs = .ok none)
    ∧ (fs.metadataResult = .ok () → (∀ b, fs.openResult = .ok b) →
        fs.modifiedResult = .error IoErrorKind.notFound →
        open_cachefile cache_config start_time now fs = .ok none)
    ∧ (∀ ce, check_expiry cache_config start_time now fs
          = .ok (ce, ExpirationTime.TouchIn 0) →
        fs.touchResult = .error IoErrorKind.notFound →
        open_cachefile cache_config start_time now fs = .ok none) := by
  have hcatch_nf : open_cachefile_inner cache_config start_time now fs
      = .error IoErrorKind.notFound →
      open_cachefile cache_config start_time now fs = .ok none := by
    intro h
    unfold open_cachefile
    rw [h]
    rfl
  have hinner_of_ce : check_expiry cache_config start_time now fs
      = .error IoErrorKind.notFound →
      open_cachefile_inner cache_config start_time now fs
        = .error IoErrorKind.notFound := by
    intro h
    unfold open_cachefile_inner
    rw [h]
    rfl
  refine ⟨hcatch_nf, ?_, ?_, ?_, ?_, ?_, ?_⟩
  · intro e he h
    unfold open_cachefile
    rw [h]
    cases e with
    | notFound => exact absurd rfl he
    | permissionDenied => rfl
    | other msg => rfl
  · intro v h
    unfold open_cachefile
    rw [h]
    rfl
  · intro h
    exact hcatch_nf (hinner_of_ce
      (check_expiry_metadata_err cache_config start_time now fs _ h))
  · intro hm ho
    exact hcatch_nf (hinner_of_ce
      (check_expiry_open_err cache_config start_time now fs _ hm ho))
  · intro hm ho hmo
    cases hob : fs.openResult with
    | ok b =>
      exact hcatch_nf (hinner_of_ce
        (check_expiry_modified_err cache_config start_time now fs _ b hm hob hmo))
    | error e => exact absurd (ho []) (by rw [hob]; exact fun h => by cases h)
  · intro ce hce ht
    exact hcatch_nf
      (open_cachefile_inner_touch_err cache_config start_time now fs _ ce hce ht)

/-- Witness for C4: a file whose metadata read already fails with
NotFound opens as a clean miss. -/
theorem open_cachefile_catches_not_found_witness :
    open_cachefile (.Downloaded ⟨none, none, none⟩) 0 0
        ⟨.error IoErrorKind.notFound, .ok [], .ok 0, .ok ()⟩ = .ok none :=
  (open_cachefile_catches_not_found (.Downloaded ⟨none, none, none⟩) 0 0
    ⟨.error IoErrorKind.notFound, .ok [], .ok 0, .ok ()⟩).2.2.2.1 rfl

/-! ## Outbound HTTP guard (utils/http.rs) -/

/-- An IP address: a V4 address is a 32-bit number, a V6 address a
128-bit number. -/
inductive IpAddr where
  | V4 (a : Nat)
  | V6 (a : Nat)
  deriving DecidableEq, Repr

/-- A V4 network in CIDR form: the network address together with the
prefix length. -/
structure Ipv4Network where
  addr : Nat
  prefixBits : Nat
  deriving DecidableEq, Repr

/-- Membership of a V4 address in a CIDR block: the top prefixBits bits
agree with the network address. -/
def Ipv4Network.contains (net : Ipv4Network) (a : Nat) : Bool :=
  a / 2 ^ (32 - net.prefixBits) = net.addr / 2 ^ (32 - net.prefixBits)

/-- A V4 address from its dotted-quad octets. -/
def ipv4 (a b c d : Nat) : Nat :=
  ((a * 256 + b) * 256 + c) * 256 + d

/-- RESERVED_IP_BLOCKS from utils/http.rs: the reserved and private V4
ranges the untrusted client refuses to connect to. -/
def RESERVED_IP_BLOCKS : List Ipv4Network := [
  ⟨ipv4 0 0 0 0, 8⟩, ⟨ipv4 10 0 0 0, 8⟩, ⟨ipv4 100 64 0 0, 10⟩,
  ⟨ipv4 127 0 0 0, 8⟩, ⟨ipv4 169 254 0 0, 16⟩, ⟨ipv4 172 16 0 0, 12⟩,
  ⟨ipv4 192 0 0 0, 29⟩, ⟨ipv4 192 0 2 0, 24⟩, ⟨ipv4 192 88 99 0, 24⟩,
  ⟨ipv4 192 168 0 0, 16⟩, ⟨ipv4 198 18 0 0, 15⟩, ⟨ipv4 198 51 100 0, 24⟩,
  ⟨ipv4 224 0 0 0, 4⟩, ⟨ipv4 240 0 0 0, 4⟩, ⟨ipv4 255 255 255 255, 32⟩]

/-- is_external_ip from utils/http.rs: a V6 address immediately yields
false (the source comment says this effectively means IPv6 is not
supported); a V4 address yields false when any reserved block contains
it, true otherwise. -/
def is_external_ip (ip : IpAddr) : Bool :=
  match ip with
  | .V6 _ => false
  | .V4 addr => !(RESERVED_IP_BLOCKS.any fun network => network.contains addr)

/-- The policy-relevant state of a reqwest client: the optional address
filter installed via ip_filter. A connection to an address is permitted
when no filter is installed or the filter returns true on the address. -/
structure Client where
  ip_filter : Option (IpAddr → Bool)

/-- create_client from utils/http.rs: installs is_external_ip as the
address filter unless the client is trusted or connect_to_reserved_ips
is set. -/
def create_client (connect_to_reserved_ips : Bool) (trusted : Bool) : Client :=
  if !(trusted || connect_to_reserved_ips) then
    { ip_filter := some is_external_ip }
  else
    { ip_filter := none }

/-- Whether the client permits connecting to the address: true when no
filter is installed, otherwise the filter value. -/
def client_permits (c : Client) (ip : IpAddr) : Bool :=
  match c.ip_filter with
  | none => true
  | some f => f ip

/-! ## C2: the guard and IPv6 -/

/-- Counterexample to C2: the untrusted client created with
connect_to_reserved_ips = false does not permit the V6 loopback address;
is_external_ip returns false on every V6 address, so IPv6 connections
are blocked, not passed through. -/
theorem ipv6_not_permitted_counterexample :
    client_permits (create_client false false) (.V6 1) = false := by decide

/-- C2 amended: for every IPv6 address, the untrusted client created
with connect_to_reserved_ips = false rejects the connection: the
installed filter is_external_ip returns false on all of IPv6. -/
theorem ipv6_always_blocked (a : Nat) :
    client_permits (create_client false false) (.V6 a) = false := rfl

/-! ## C9: saturating conversion to signed 64-bit -/

/-- The largest signed 64-bit value. -/
def I64_MAX : Nat := 2 ^ 63 - 1

/-- to_maxing_i64 from metrics.rs and service.rs, for the unsigned
inputs the task-metrics bridge feeds it (u64 task counts and u128
millisecond totals): TryInto of i64 succeeds exactly on values up to
i64::MAX, and unwrap_or substitutes i64::MAX on failure. -/
def to_maxing_i64 (x : Nat) : Int :=
  if x ≤ I64_MAX then (x : Int) else (I64_MAX : Int)

/-- C9: to_maxing_i64 is the identity on every value representable in
signed 64-bit and saturates every larger value to i64::MAX; it never
truncates. -/
theorem to_maxing_i64_saturates (x : Nat) :
    (x ≤ I64_MAX → to_maxing_i64 x = (x : Int))
    ∧ (x > I64_MAX → to_maxing_i64 x = (I64_MAX : Int))
    ∧ to_maxing_i64 x ≤ (I64_MAX : Int) := by
  refine ⟨fun h => if_pos h, fun h => if_neg (by omega), ?_⟩
  unfold to_maxing_i64
  split
  · omega
  · omega

/-- Witness for C9: a representable value passes through unchanged and
u64::MAX saturates to i64::MAX. -/
theorem to_maxing_i64_saturates_witness :
    to_maxing_i64 42 = (42 : Int)
    ∧ to_maxing_i64 (2 ^ 64 - 1) = (I64_MAX : Int) :=
  ⟨(to_maxing_i64_saturates 42).1 (by decide),
   (to_maxing_i64_saturates (2 ^ 64 - 1)).2.1 (by decide)⟩

/-! ## Request service (service.rs) -/

/-- A 128-bit UUID, modelled as its numeric value. -/
structure Uuid where
  val : Nat
  deriving DecidableEq, Repr

/-- The nil (all-zero) UUID, the value of Uuid::default(). -/
def Uuid.nil : Uuid := ⟨0⟩

/-- RequestId from service.rs: a newtype over Uuid. -/
structure RequestId where
  uuid : Uuid
  deriving DecidableEq, Repr

/-- SymbolicationResponse from service.rs; the completed payload is
opaque to the request service and modelled as a number. -/
inductive SymbolicationResponse where
  | Pending (request_id : RequestId) (retry_after : Nat)
  | Completed (payload : Nat)
  | Failed (message : String)
  | Timeout
  | InternalError
  deriving DecidableEq, Repr

/-- MaxRequestsError from service.rs. -/
inductive MaxRequestsError where
  | mk
  deriving DecidableEq, Repr

/-- The admission-control core of create_symbolication_request from
service.rs: read the current in-flight count; when a cap is configured
and the count has reached it, fail with MaxRequestsError; otherwise
admit the job and increment the in-flight counter, returning the new
count. -/
def create_symbolication_request (max_concurrent_requests : Option Nat)
    (current_requests : Nat) : Except MaxRequestsError Nat :=
  match max_concurrent_requests with
  | some m =>
    if current_requests ≥ m then .error MaxRequestsError.mk
    else .ok (current_requests + 1)
  | none => .ok (current_requests + 1)

/-- Submitting k jobs in a row while none completes: each successful
submission raises the in-flight count by one, a rejected submission
leaves it unchanged; the list records which submissions succeeded. -/
def submit_sequence (max_concurrent_requests : Option Nat) :
    Nat → Nat → List Bool
  | 0, _ => []
  | k + 1, current_requests =>
    match create_symbolication_request max_concurrent_requests current_requests with
    | .ok newCount => true :: submit_sequence max_concurrent_requests k newCount
    | .error _ => false :: submit_sequence max_concurrent_requests k current_requests

/-- Helper for C5: with a configured cap, the admission decision is an
ordinary comparison against the cap. -/
theorem create_request_some_cap (n current_requests : Nat) :
    create_symbolication_request (some n) current_requests
      = if n ≤ current_requests then .error MaxRequestsError.mk
        else .ok (current_requests + 1) := rfl

/-- Helper for C5: with cap n, starting below the cap and submitting
exactly enough jobs to overflow it by one, the successes are exactly the
submissions made below the cap. -/
theorem submit_sequence_fills_cap (n : Nat) :
    ∀ k current_requests, current_requests + k = n + 1 → current_requests ≤ n →
      submit_sequence (some n) k current_requests
        = List.replicate (n - current_requests) true ++ [false] := by
  intro k
  induction k with
  | zero => intro current h1 h2; omega
  | succ k ih =>
    intro current h1 h2
    unfold submit_sequence
    rw [create_request_some_cap]
    by_cases hc : n ≤ current
    · have hk : k = 0 := by omega
      have h0 : n - current = 0 := by omega
      subst hk
      rw [if_pos hc, h0]
      simp [submit_sequence]
    · rw [if_neg hc]
      dsimp only
      have := ih (current + 1) (by omega) (by omega)
      rw [this]
      have hrep : n - current = (n - (current + 1)) + 1 := by omega
      rw [hrep, List.replicate_succ]
      rfl

/-! ## C5: the admission cap -/

/-- C5: with max_concurrent_requests = n, submission fails with
MaxRequestsError exactly when the in-flight count is at least n, a
submission below the cap increments the count, and submitting n + 1
jobs from an idle service admits the first n and rejects the last. -/
theorem admission_cap (n : Nat) :
    (∀ current_requests,
      create_symbolication_request (some n) current_requests
          = .error MaxRequestsError.mk
        ↔ n ≤ current_requests)
    ∧ (∀ current_requests, current_requests < n →
        create_symbolication_request (some n) current_requests
          = .ok (current_requests + 1))
    ∧ submit_sequence (some n) (n + 1) 0
        = List.replicate n true ++ [false] := by
  refine ⟨?_, ?_, ?_⟩
  · intro current
    rw [create_request_some_cap]
    by_cases hc : n ≤ current
    · rw [if_pos hc]
      exact ⟨fun _ => hc, fun _ => rfl⟩
    · rw [if_neg hc]
      constructor
      · intro h
        cases h
      · intro h
        exact absurd h hc
  · intro current h
    rw [create_request_some_cap, if_neg (by omega)]
  · have := submit_sequence_fills_cap n (n + 1) 0 (by omega) (by omega)
    simpa using this

/-- Witness for C5 at cap 2: below-cap submissions succeed and
increment, the at-cap submission fails, and three submissions from idle
give two successes then a rejection. -/
theorem admission_cap_witness :
    create_symbolication_request (some 2) 0 = .ok 1
    ∧ create_symbolication_request (some 2) 2 = .error MaxRequestsError.mk
    ∧ submit_sequence (some 2) 3 0 = [true, true, false] :=
  ⟨(admission_cap 2).2.1 0 (by decide),
   ((admission_cap 2).1 2).mpr (by decide),
   (admission_cap 2).2.2⟩

/-! ## Polling (service.rs) -/

/-- The two ways the shared one-shot completion channel can resolve:
the worker sent (finished_at, response), or the sender was dropped
before sending. -/
inductive ChannelOutcome where
  | ready (finished_at : Nat) (response : SymbolicationResponse)
  | canceled
  deriving DecidableEq, Repr

/-- One stored computation channel, as observed by a poller: what the
race against a t-second timer observes (none when the timer fires before
the channel yields), and what awaiting without a timer observes. -/
structure ComputationChannel where
  withinTimeout : Option ChannelOutcome
  eventual : ChannelOutcome
  deriving DecidableEq, Repr

/-- The tail of wrap_response_channel from service.rs: a yielded pair
produces its response, a dropped sender produces InternalError. -/
def settle_channel : ChannelOutcome → SymbolicationResponse
  | .ready _ response => response
  | .canceled => SymbolicationResponse.InternalError

/-- wrap_response_channel from service.rs: with a timeout, race the
channel against the timer and answer Pending{request_id, retry_after: 30}
when the timer fires first; without a timeout, await the channel. -/
def wrap_response_channel (request_id : RequestId) (timeout : Option Nat)
    (channel : ComputationChannel) : SymbolicationResponse :=
  match timeout with
  | some _ =>
    match channel.withinTimeout with
    | none => SymbolicationResponse.Pending request_id 30
    | some outcome => settle_channel outcome
  | none => settle_channel channel.eventual

/-- get_response from service.rs: look the channel up under the lock;
a missing entry is None, a present one is resolved through
wrap_response_channel. -/
def get_response (requests : RequestId → Option ComputationChannel)
    (request_id : RequestId) (timeout : Option Nat) :
    Option SymbolicationResponse :=
  match requests request_id with
  | some channel => some (wrap_response_channel request_id timeout channel)
  | none => none

/-! ## C6: poll timeout yields Pending with retry_after 30 -/

/-- C6: for every known request id and every timeout Some(t), when the
channel has not yielded before the timer fires, get_response returns
Pending carrying the same request id and retry_after 30. -/
theorem poll_timeout_pending (requests : RequestId → Option ComputationChannel)
    (request_id : RequestId) (t : Nat) (channel : ComputationChannel)
    (hknown : requests request_id = some channel)
    (hrace : channel.withinTimeout = none) :
    get_response requests request_id (some t)
      = some (SymbolicationResponse.Pending request_id 30) := by
  unfold get_response
  rw [hknown]
  dsimp only
  unfold wrap_response_channel
  dsimp only
  rw [hrace]

/-- Witness for C6: a one-entry computation map polled with a 0-second
timeout while the job is still running answers Pending with
retry_after 30. -/
theorem poll_timeout_pending_witness :
    get_response
        (fun i => if i = ⟨⟨7⟩⟩ then some ⟨none, ChannelOutcome.canceled⟩ else none)
        ⟨⟨7⟩⟩ (some 0)
      = some (SymbolicationResponse.Pending ⟨⟨7⟩⟩ 30) :=
  poll_timeout_pending
    (fun i => if i = ⟨⟨7⟩⟩ then some ⟨none, ChannelOutcome.canceled⟩ else none)
    ⟨⟨7⟩⟩ 0 ⟨none, ChannelOutcome.canceled⟩ (by decide) rfl

/-! ## C10: RequestId deserialization never fails -/

/-- A deserializer error, opaque to the RequestId implementation. -/
inductive DeError where
  | custom (msg : String)
  deriving DecidableEq, Repr

/-- The Deserialize implementation of RequestId from service.rs: run
Uuid deserialization and wrap its unwrap_or_default in Ok, so a failed
parse becomes the nil UUID instead of an error. -/
def RequestId.deserialize (uuid : Except DeError Uuid) : Except DeError RequestId :=
  .ok ⟨match uuid with | .ok u => u | .error _ => Uuid.nil⟩

/-- C10: RequestId deserialization is total: every outcome of the inner
Uuid deserialization, success or error, produces Ok, and every error
produces the nil UUID. -/
theorem requestid_deserialize_total (uuid : Except DeError Uuid) :
    (∃ id, RequestId.deserialize uuid = .ok id)
    ∧ (∀ u, uuid = .ok u → RequestId.deserialize uuid = .ok ⟨u⟩)
    ∧ (∀ e, uuid = .error e → RequestId.deserialize uuid = .ok ⟨Uuid.nil⟩) := by
  refine ⟨⟨_, rfl⟩, ?_, ?_⟩
  · intro u h
    rw [h]
    rfl
  · intro e h
    rw [h]
    rfl

/-- Witness for C10: a failed UUID parse deserializes to the nil
RequestId rather than an error. -/
theorem requestid_deserialize_total_witness :
    RequestId.deserialize (.error (.custom "not a uuid")) = .ok ⟨Uuid.nil⟩ :=
  (requestid_deserialize_total (.error (.custom "not a uuid"))).2.2
    (.custom "not a uuid") rfl

end Symbolicator
